import Mathlib

/-!
# Verification of the LA-surf interpolation + quality-scoring pipeline

Shallow embedding, over `ℚ`, of the core algorithms of the LA-surf
repository:

* `src/utils/waveQuality.ts` — the 0–100 surf-quality scoring engine
  (`calculateWaveQuality` and its component curves);
* `src/app/api/wave-data/route.ts` — the per-point station interpolation,
  synthetic fallback, section bias correction and record assembly
  (`processSectionWaveData`, `processWaveDataForCoastline`);
* `src/data/sections.ts` and the coastline data — the section registry.

Modelling conventions:

* JavaScript numbers are modelled as exact rationals (`ℚ`).  All the
  constants of the source are decimal literals, so every computation of the
  source is exactly representable; floating-point rounding is not modelled.
* `Math.round` (round half toward +∞ for the non-negative values that occur
  here) is `jsRound`; JavaScript's `%` (truncated remainder, sign of the
  dividend) is `jsMod`.
* `Math.sqrt`, used by the source only to produce a station→point distance
  that feeds the inverse-distance weight, is irrational; the distance is
  therefore kept as an explicit function parameter `dist`, and every theorem
  quantifies over it, so the results hold in particular for the Euclidean
  distance the source computes.
* `null`/`undefined` data becomes `Option ℚ`; fallible pipeline stages
  (`throw`) become `Except String _`.
* String timestamps (`time`, `measurementTime`, `timestamp`) and the
  `Date`-based earliest-measurement bookkeeping are not modelled: no claim
  under verification mentions them.
-/

/-- JavaScript truncation toward zero (`Math.trunc`, also the rounding used
by the `%` operator). -/
def jsTrunc (q : ℚ) : ℤ :=
  if 0 ≤ q then ⌊q⌋ else ⌈q⌉

/-- JavaScript's `%` operator on numbers: remainder with the sign of the
dividend, `x % n = x - n * trunc (x / n)`. -/
def jsMod (x n : ℚ) : ℚ :=
  x - n * (jsTrunc (x / n) : ℚ)

/-- `Math.round` for the non-negative arguments produced by this code base:
round half up, `⌊x + 1/2⌋`. -/
def jsRound (x : ℚ) : ℤ :=
  ⌊x + 1 / 2⌋

/-- `Math.round(x * 10) / 10`, the one-decimal rounding used on output
fields. -/
def roundTo1 (x : ℚ) : ℚ :=
  (jsRound (x * 10) : ℚ) / 10

/-- `x?.field || d` for an optional numeric field: JavaScript `||` treats
`0` (and `undefined`) as falsy. -/
def jsOrDefault (x : Option ℚ) (d : ℚ) : ℚ :=
  match x with
  | some v => if v = 0 then d else v
  | none => d

/-! ## Scoring engine (`src/utils/waveQuality.ts`) -/

/-- The `optimal` block of `WaveQualityConfig`. -/
structure OptimalConfig where
  minWaveHeight : ℚ
  maxWaveHeight : ℚ
  minWavePeriod : ℚ
  maxWavePeriod : ℚ
  maxWindSpeed : ℚ
  deriving Repr, DecidableEq

/-- The `weights` block of `WaveQualityConfig`. -/
structure WeightsConfig where
  waveHeight : ℚ
  wavePeriod : ℚ
  windSpeed : ℚ
  locationFactor : ℚ
  deriving Repr, DecidableEq

/-- `WaveQualityConfig`. -/
structure WaveQualityConfig where
  weights : WeightsConfig
  optimal : OptimalConfig
  deriving Repr, DecidableEq

/-- The shipped configuration `WAVE_QUALITY_CONFIG`
(`src/utils/waveQuality.ts:43-57`). -/
def WAVE_QUALITY_CONFIG : WaveQualityConfig :=
  { weights :=
      { waveHeight := 0.25
        wavePeriod := 0.20
        windSpeed := 0.45
        locationFactor := 0.10 }
    optimal :=
      { minWaveHeight := 3.0
        maxWaveHeight := 6.0
        minWavePeriod := 10.0
        maxWavePeriod := 16.0
        maxWindSpeed := 12.0 } }

/-- `WaveQualityInput`: the reading handed to `calculateWaveQuality`.
`waveDirection`/`windDirection` are optional in the TypeScript type. -/
structure WaveQualityInput where
  waveHeight : ℚ
  wavePeriod : ℚ
  windSpeed : ℚ
  waveDirection : Option ℚ
  windDirection : Option ℚ
  deriving Repr, DecidableEq

/-- `calculateWaveHeightScore` (`src/utils/waveQuality.ts:93-116`). -/
def calculateWaveHeightScore (height : ℚ) (optimal : OptimalConfig) : ℚ :=
  if height ≤ 0 then 0
  else if height < 1.5 then
    max 0 (height * 0.133)
  else if height < optimal.minWaveHeight then
    let progress := (height - 1.5) / (optimal.minWaveHeight - 1.5)
    0.2 + progress * 0.3
  else if height ≤ optimal.maxWaveHeight then
    let progress := (height - optimal.minWaveHeight) /
      (optimal.maxWaveHeight - optimal.minWaveHeight)
    0.5 + progress * 0.5
  else if height ≤ 8 then
    let progress := (height - optimal.maxWaveHeight) / (8 - optimal.maxWaveHeight)
    0.8 - progress * 0.2
  else
    let excess := min (height - 8) 4
    0.4 - excess / 4 * 0.2

/-- `calculateWavePeriodScore` (`src/utils/waveQuality.ts:122-145`). -/
def calculateWavePeriodScore (period : ℚ) (optimal : OptimalConfig) : ℚ :=
  if period ≤ 0 then 0
  else if period < 7 then
    max 0 (period * 0.0286)
  else if period < optimal.minWavePeriod then
    let progress := (period - 7) / (optimal.minWavePeriod - 7)
    0.2 + progress * 0.3
  else if period ≤ 13 then
    let progress := (period - optimal.minWavePeriod) / (13 - optimal.minWavePeriod)
    0.5 + progress * 0.3
  else if period ≤ optimal.maxWavePeriod then
    let progress := (period - 13) / (optimal.maxWavePeriod - 13)
    0.8 + progress * 0.2
  else
    let excess := min (period - optimal.maxWavePeriod) 8
    0.8 - excess / 8 * 0.2

/-- The angle normalisation `((x % 360) + 360) % 360` used by
`calculateWindDirectionModifier` (`src/utils/waveQuality.ts:198-199`). -/
def normalize360 (x : ℚ) : ℚ :=
  jsMod (jsMod x 360 + 360) 360

/-- `calculateWindDirectionModifier` (`src/utils/waveQuality.ts:196-226`). -/
def calculateWindDirectionModifier (windDirection waveDirection : ℚ) : ℚ :=
  let normalizedWindDir := normalize360 windDirection
  let normalizedWaveDir := normalize360 waveDirection
  let angleDiff0 := |normalizedWindDir - normalizedWaveDir|
  let angleDiff := if angleDiff0 > 180 then 360 - angleDiff0 else angleDiff0
  if angleDiff ≤ 45 then 0.3
  else if angleDiff ≥ 135 then 1.4
  else if angleDiff ≥ 90 then 1.1
  else
    let factor := (angleDiff - 45) / 45
    0.3 + factor * 0.8

/-- The base wind-speed curve: the `windSpeedScore` local of
`calculateWindScore` (`src/utils/waveQuality.ts:160-180`).  The source reads
the breakpoint as `optimal?.maxWindSpeed || 12`. -/
def baseWindSpeedScore (windSpeed : ℚ) (optimal : Option OptimalConfig) : ℚ :=
  let mws := jsOrDefault (optimal.map (·.maxWindSpeed)) 12
  if windSpeed ≤ 3 then
    0.9 + (3 - windSpeed) * 0.033
  else if windSpeed ≤ 8 then
    let progress := (windSpeed - 3) / 5
    0.9 - progress * 0.3
  else if windSpeed ≤ mws then
    let progress := (windSpeed - 8) / (mws - 8)
    0.6 - progress * 0.3
  else if windSpeed ≤ 18 then
    let progress := (windSpeed - mws) / (18 - mws)
    0.3 - progress * 0.2
  else
    let excess := min (windSpeed - 18) 12
    0.1 - excess / 12 * 0.1

/-- `calculateWindScore` (`src/utils/waveQuality.ts:151-189`): early `0` for
negative speeds, base speed curve, then the direction modifier applied only
when both directions are present. -/
def calculateWindScore (windSpeed : ℚ) (windDirection waveDirection : Option ℚ)
    (optimal : Option OptimalConfig) : ℚ :=
  if windSpeed < 0 then 0
  else
    let windSpeedScore := baseWindSpeedScore windSpeed optimal
    match windDirection, waveDirection with
    | some wd, some vd => windSpeedScore * calculateWindDirectionModifier wd vd
    | _, _ => windSpeedScore

/-- `calculateWaveQuality` (`src/utils/waveQuality.ts:62-87`).  Returns the
integer score; `Math.round` of a value already clamped to `[0, 100]`. -/
def calculateWaveQuality (input : WaveQualityInput) (locationFactor : ℚ) : ℤ :=
  let weights := WAVE_QUALITY_CONFIG.weights
  let optimal := WAVE_QUALITY_CONFIG.optimal
  let heightScore := calculateWaveHeightScore input.waveHeight optimal
  let periodScore := calculateWavePeriodScore input.wavePeriod optimal
  let windScore :=
    calculateWindScore input.windSpeed input.windDirection input.waveDirection
      (some optimal)
  let conditionsScore :=
    heightScore * weights.waveHeight + periodScore * weights.wavePeriod +
      windScore * weights.windSpeed
  let locationWeight := if weights.locationFactor = 0 then 0.10 else weights.locationFactor
  let locationScore := max 0 (min 1 locationFactor)
  let totalScore := conditionsScore * (1 - locationWeight) + locationScore * locationWeight
  jsRound (max 0 (min 100 (totalScore * 100)))

/-- `getWaveQualityLevel` thresholds (`src/utils/waveQuality.ts:241-246`). -/
inductive WaveQualityLevel where
  | excellent
  | good
  | fair
  | poor
  deriving Repr, DecidableEq

/-- `getWaveQualityLevel` (`src/utils/waveQuality.ts:241-246`). -/
def getWaveQualityLevel (score : ℤ) : WaveQualityLevel :=
  if score ≥ 75 then .excellent
  else if score ≥ 55 then .good
  else if score ≥ 35 then .fair
  else .poor

/-! ## Pipeline data model (`src/app/api/wave-data/route.ts`) -/

/-- The `current` block of an Open-Meteo station response (wave and wind
families merged as in `types/wave-data`; every field may be `null`).  The
`time` string is not modelled (see the module comment). -/
structure CurrentData where
  wave_height : Option ℚ
  wave_period : Option ℚ
  wave_direction : Option ℚ
  sea_surface_temperature : Option ℚ
  wind_speed_10m : Option ℚ
  wind_direction_10m : Option ℚ
  temperature_2m : Option ℚ
  deriving Repr, DecidableEq

/-- The `hourly` block: parallel arrays with possibly-`null` entries. -/
structure HourlyData where
  wave_height : List (Option ℚ)
  wave_period : List (Option ℚ)
  wave_direction : List (Option ℚ)
  swell_wave_height : List (Option ℚ)
  swell_wave_period : List (Option ℚ)
  sea_surface_temperature : List (Option ℚ)
  wind_speed_10m : List (Option ℚ)
  wind_direction_10m : List (Option ℚ)
  temperature_2m : List (Option ℚ)
  deriving Repr, DecidableEq

/-- `OpenMeteoResponse`: one station's data. -/
structure OpenMeteoResponse where
  latitude : ℚ
  longitude : ℚ
  current : CurrentData
  hourly : HourlyData
  deriving Repr, DecidableEq

/-- `findFirstNonNullTripletIndex` (`route.ts:1159-1165`): first index below
the minimum length where all three arrays are non-null; `none` models `-1`. -/
def findFirstNonNullTripletIndex :
    List (Option ℚ) → List (Option ℚ) → List (Option ℚ) → Option ℕ
  | a :: as, b :: bs, c :: cs =>
    if a.isSome && b.isSome && c.isSome then some 0
    else (findFirstNonNullTripletIndex as bs cs).map (· + 1)
  | _, _, _ => none

/-- `findFirstNonNullPairIndex` (`route.ts:1167-1173`). -/
def findFirstNonNullPairIndex : List (Option ℚ) → List (Option ℚ) → Option ℕ
  | a :: as, b :: bs =>
    if a.isSome && b.isSome then some 0
    else (findFirstNonNullPairIndex as bs).map (· + 1)
  | _, _ => none

/-- `findFirstNonNullIndex` (`route.ts:1175-1180`). -/
def findFirstNonNullIndex : List (Option ℚ) → Option ℕ
  | a :: as =>
    if a.isSome then some 0
    else (findFirstNonNullIndex as).map (· + 1)
  | _ => none

/-- `array?.[i] ?? null`. -/
def getAt (l : List (Option ℚ)) (i : ℕ) : Option ℚ :=
  (l.get? i).join

/-- `x || null`: JavaScript `||` maps a `0` value to `null`. -/
def jsOrNull (x : Option ℚ) : Option ℚ :=
  match x with
  | some v => if v = 0 then none else some v
  | none => none

/-- Wave-triple resolution for one station (`route.ts:926-947`): use the
`current` values if all three are present, otherwise replace the whole
triple with the first hourly index where height, period and direction are
jointly non-null; a station with no such values contributes nothing. -/
def resolveWaveTriple (s : OpenMeteoResponse) : Option (ℚ × ℚ × ℚ) :=
  match s.current.wave_height, s.current.wave_period, s.current.wave_direction with
  | some h, some p, some d => some (h, p, d)
  | _, _, _ =>
    match findFirstNonNullTripletIndex s.hourly.wave_height s.hourly.wave_period
        s.hourly.wave_direction with
    | some i =>
      match getAt s.hourly.wave_height i, getAt s.hourly.wave_period i,
          getAt s.hourly.wave_direction i with
      | some h, some p, some d => some (h, p, d)
      | _, _, _ => none
    | none => none

/-- Water-temperature resolution (`route.ts:950-955`). -/
def resolveWaterTemp (s : OpenMeteoResponse) : Option ℚ :=
  match s.current.sea_surface_temperature with
  | some t => some t
  | none =>
    match findFirstNonNullIndex s.hourly.sea_surface_temperature with
    | some i => getAt s.hourly.sea_surface_temperature i
    | none => none

/-- Swell-pair resolution (`route.ts:973-981`); note the source uses `||`,
so a `0` swell value is treated as missing. -/
def resolveSwellPair (s : OpenMeteoResponse) : Option (ℚ × ℚ) :=
  match findFirstNonNullPairIndex s.hourly.swell_wave_height s.hourly.swell_wave_period with
  | some i =>
    match jsOrNull (getAt s.hourly.swell_wave_height i),
        jsOrNull (getAt s.hourly.swell_wave_period i) with
    | some h, some p => some (h, p)
    | _, _ => none
  | none => none

/-- Wind-triple resolution (`route.ts:1002-1021`): unlike the wave triple,
only the missing fields are filled from the hourly index. -/
def resolveWindTriple (s : OpenMeteoResponse) : Option ℚ × Option ℚ × Option ℚ :=
  let cs := s.current.wind_speed_10m
  let cd := s.current.wind_direction_10m
  let ct := s.current.temperature_2m
  if cs.isSome && cd.isSome && ct.isSome then (cs, cd, ct)
  else
    match findFirstNonNullTripletIndex s.hourly.wind_speed_10m s.hourly.wind_direction_10m
        s.hourly.temperature_2m with
    | some i =>
      (cs <|> getAt s.hourly.wind_speed_10m i, cd <|> getAt s.hourly.wind_direction_10m i,
        ct <|> getAt s.hourly.temperature_2m i)
    | none => (cs, cd, ct)

/-- Accumulator for the wave-station loop (`route.ts:915-920`). -/
structure WaveAcc where
  waveWeight : ℚ
  weightedHeight : ℚ
  weightedPeriod : ℚ
  weightedDirection : ℚ
  weightedSwellHeight : ℚ
  weightedSwellPeriod : ℚ
  weightedWaterTemp : ℚ
  deriving Repr, DecidableEq

/-- One iteration of the wave-station loop (`route.ts:922-990`), for a
station paired with its distance to the target point. -/
def waveAccStep (acc : WaveAcc) (sd : OpenMeteoResponse × ℚ) : WaveAcc :=
  let weight := 1 / (sd.2 + 0.01)
  match resolveWaveTriple sd.1 with
  | some (h, p, d) =>
    { waveWeight := acc.waveWeight + weight
      weightedHeight := acc.weightedHeight + h * weight
      weightedPeriod := acc.weightedPeriod + p * weight
      weightedDirection := acc.weightedDirection + d * weight
      weightedSwellHeight := acc.weightedSwellHeight +
        (match resolveSwellPair sd.1 with
          | some (sh, _) => sh * weight
          | none => 0)
      weightedSwellPeriod := acc.weightedSwellPeriod +
        (match resolveSwellPair sd.1 with
          | some (_, sp) => sp * weight
          | none => 0)
      weightedWaterTemp := acc.weightedWaterTemp +
        (match resolveWaterTemp sd.1 with
          | some t => t * weight
          | none => 0) }
  | none => acc

/-- Accumulator for the wind-station loop (`route.ts:993-996`). -/
structure WindAcc where
  windWeight : ℚ
  weightedWindSpeed : ℚ
  weightedWindDirection : ℚ
  weightedAirTemp : ℚ
  deriving Repr, DecidableEq

/-- One iteration of the wind-station loop (`route.ts:998-1038`): the
station contributes when speed and direction resolve; air temperature is
optional. -/
def windAccStep (acc : WindAcc) (sd : OpenMeteoResponse × ℚ) : WindAcc :=
  let weight := 1 / (sd.2 + 0.01)
  match resolveWindTriple sd.1 with
  | (some sp, some dir, airTemp) =>
    { windWeight := acc.windWeight + weight
      weightedWindSpeed := acc.weightedWindSpeed + sp * weight
      weightedWindDirection := acc.weightedWindDirection + dir * weight
      weightedAirTemp := acc.weightedAirTemp +
        (match airTemp with
          | some t => t * weight
          | none => 0) }
  | _ => acc

/-- Stable insertion into a list already sorted by ascending distance. -/
def insertByDist (x : OpenMeteoResponse × ℚ) :
    List (OpenMeteoResponse × ℚ) → List (OpenMeteoResponse × ℚ)
  | [] => [x]
  | y :: l => if y.2 ≤ x.2 then y :: insertByDist x l else x :: y :: l

/-- Stable ascending sort by distance, modelling the JavaScript stable
`sort((a, b) => a.distance - b.distance)` (`route.ts:892`). -/
def sortByDist : List (OpenMeteoResponse × ℚ) → List (OpenMeteoResponse × ℚ)
  | [] => []
  | x :: l => insertByDist x (sortByDist l)

/-- A coastline target point. -/
structure CoastlinePoint where
  lat : ℚ
  lng : ℚ
  name : String
  deriving Repr, DecidableEq

/-- The `Math.random()` draws consumed by the synthetic fallback for one
point, each in `[0, 1)`. -/
structure RandomDraws where
  waveHeightDraw : ℚ
  wavePeriodDraw : ℚ
  waveDirectionDraw : ℚ
  windSpeedDraw : ℚ
  windDirectionDraw : ℚ
  deriving Repr, DecidableEq

/-- All `Math.random()` results lie in `[0, 1)`. -/
def validDraws (d : RandomDraws) : Prop :=
  0 ≤ d.waveHeightDraw ∧ d.waveHeightDraw < 1 ∧
    0 ≤ d.wavePeriodDraw ∧ d.wavePeriodDraw < 1 ∧
    0 ≤ d.waveDirectionDraw ∧ d.waveDirectionDraw < 1 ∧
    0 ≤ d.windSpeedDraw ∧ d.windSpeedDraw < 1 ∧
    0 ≤ d.windDirectionDraw ∧ d.windDirectionDraw < 1

/-- The wave half of the interpolated raw reading (`avg*` locals). -/
structure WaveReading where
  avgHeight : ℚ
  avgPeriod : ℚ
  avgDirection : ℚ
  avgSwellHeight : ℚ
  avgSwellPeriod : ℚ
  avgWaterTemp : ℚ
  deriving Repr, DecidableEq

/-- The wind half of the interpolated raw reading. -/
structure WindReading where
  avgWindSpeed : ℚ
  avgWindDirection : ℚ
  avgAirTemp : ℚ
  deriving Repr, DecidableEq

/-- The synthetic wave fallback (`route.ts:1040-1052`). -/
def syntheticWaveReading (d : RandomDraws) : WaveReading :=
  let fallbackHeight := 1.0 + d.waveHeightDraw * 0.5
  let fallbackPeriod := 10 + d.wavePeriodDraw * 3
  let fallbackDirection := 250 + d.waveDirectionDraw * 20
  { avgHeight := fallbackHeight
    avgPeriod := fallbackPeriod
    avgDirection := fallbackDirection
    avgSwellHeight := fallbackHeight * 0.7
    avgSwellPeriod := fallbackPeriod + 2
    avgWaterTemp := 62 }

/-- Wave averaging with zero-weight fallback (`route.ts:1040-1061`). -/
def waveAverages (wacc : WaveAcc) (d : RandomDraws) : WaveReading :=
  if wacc.waveWeight = 0 then syntheticWaveReading d
  else
    { avgHeight := wacc.weightedHeight / wacc.waveWeight
      avgPeriod := wacc.weightedPeriod / wacc.waveWeight
      avgDirection := wacc.weightedDirection / wacc.waveWeight
      avgSwellHeight := wacc.weightedSwellHeight / wacc.waveWeight
      avgSwellPeriod := wacc.weightedSwellPeriod / wacc.waveWeight
      avgWaterTemp := wacc.weightedWaterTemp / wacc.waveWeight }

/-- The synthetic wind fallback (`route.ts:1063-1068`). -/
def syntheticWindReading (d : RandomDraws) : WindReading :=
  { avgWindSpeed := 8 + d.windSpeedDraw * 6
    avgWindDirection := 280 + d.windDirectionDraw * 40
    avgAirTemp := 68 }

/-- Wind averaging with zero-weight fallback (`route.ts:1063-1074`). -/
def windAverages (wiacc : WindAcc) (d : RandomDraws) : WindReading :=
  if wiacc.windWeight = 0 then syntheticWindReading d
  else
    { avgWindSpeed := wiacc.weightedWindSpeed / wiacc.windWeight
      avgWindDirection := wiacc.weightedWindDirection / wiacc.windWeight
      avgAirTemp := wiacc.weightedAirTemp / wiacc.windWeight }

/-- Station interpolation for one target point (`route.ts:885-1074`): pick
the three nearest stations of each family, fold the inverse-distance
weighting, then average or fall back.  `dist` abstracts the irrational
`Math.sqrt` of squared coordinate differences (`route.ts:887-889`). -/
def interpolatePoint (waveStationsToUse windStationsToUse : List OpenMeteoResponse)
    (dist : OpenMeteoResponse → CoastlinePoint → ℚ) (point : CoastlinePoint)
    (d : RandomDraws) : WaveReading × WindReading :=
  let nearbyWaveStations :=
    (sortByDist (waveStationsToUse.map fun s => (s, dist s point))).take 3
  let nearbyWindStations :=
    (sortByDist (windStationsToUse.map fun s => (s, dist s point))).take 3
  let wacc := nearbyWaveStations.foldl waveAccStep ⟨0, 0, 0, 0, 0, 0, 0⟩
  let wiacc := nearbyWindStations.foldl windAccStep ⟨0, 0, 0, 0⟩
  (waveAverages wacc d, windAverages wiacc d)

/-- The per-section bias record as consumed by the route
(`getSectionCharacteristics`, `route.ts:1182-1189`; the table's `tempOffset`
is unused by the route). -/
structure SectionBias where
  heightMultiplier : ℚ
  periodMultiplier : ℚ
  directionOffset : ℚ
  windOffset : ℚ
  deriving Repr, DecidableEq

/-- The section-bias-adjusted reading (`final*` locals,
`route.ts:1076-1083`). -/
structure BiasedReading where
  finalHeight : ℚ
  finalPeriod : ℚ
  finalDirection : ℚ
  finalWindSpeed : ℚ
  finalWindDirection : ℚ
  deriving Repr, DecidableEq

/-- The section bias corrector (`route.ts:1076-1083`). -/
def applySectionBias (wave : WaveReading) (wind : WindReading) (m : SectionBias) :
    BiasedReading :=
  { finalHeight := max 0.3 (min 3.0 (wave.avgHeight * m.heightMultiplier))
    finalPeriod := max 6 (min 20 (wave.avgPeriod * m.periodMultiplier))
    finalDirection := wave.avgDirection + m.directionOffset
    finalWindSpeed := max 0 (min 35 (wind.avgWindSpeed + m.windOffset))
    finalWindDirection := wind.avgWindDirection }

/-- Tide trend. -/
inductive TideTrend where
  | rising
  | falling
  deriving Repr, DecidableEq

/-- A per-station tide summary. -/
structure TideInfo where
  height : ℚ
  trend : TideTrend
  deriving Repr, DecidableEq

/-- Trend derivation in `fetchNOAATideData` (`route.ts:792-807`): require at
least two readings, take the last two of the series (`slice(-2)`), and
compare; the water-level strings are modelled as their parsed rationals. -/
def deriveTideReading (data : List (String × ℚ)) : Option TideInfo :=
  if data.length < 2 then none
  else
    match data.drop (data.length - 2) with
    | [previous, current] =>
      some ⟨current.2, if current.2 > previous.2 then .rising else .falling⟩
    | _ => none

/-- Tide-station fallback chain (`route.ts:1114-1125`): the section's own
station, then `'Los Angeles'`, then the first stored tide value, else the
2.5 ft rising default.  The tide map is modelled as an insertion-ordered
association list. -/
def lookupTide (tideData : List (String × TideInfo)) (sectionName : String) : Option TideInfo :=
  (tideData.lookup sectionName).orElse fun _ =>
    (tideData.lookup "Los Angeles").orElse fun _ =>
      (tideData.map Prod.snd).head?

/-- Whitespace-run collapsing, `replace(/\s+/g, '-')`; the flag records
whether the previous character was whitespace. -/
def collapseWhitespace : Bool → List Char → List Char
  | _, [] => []
  | prevWs, c :: rest =>
    if c.isWhitespace then
      if prevWs then collapseWhitespace true rest
      else '-' :: collapseWhitespace true rest
    else c :: collapseWhitespace false rest

/-- `section.name.toLowerCase().replace(/\s+/g, '-')` (`route.ts:1140`),
for the ASCII section names used by this app. -/
def sectionSlug (name : String) : String :=
  String.mk (collapseWhitespace false (name.data.map Char.toLower))

/-- The output record (`WaveDataPoint`, `route.ts:1139-1154`); the two
timestamp strings are not modelled. -/
structure WaveDataPoint where
  id : String
  lat : ℚ
  lng : ℚ
  waveHeight : ℚ
  wavePeriod : ℚ
  waveDirection : ℤ
  windSpeed : ℚ
  waterTemp : ℚ
  airTemp : ℚ
  tideHeight : ℚ
  tideTrend : TideTrend
  qualityScore : ℤ
  deriving Repr, DecidableEq

/-- Unit conversion, validation and record assembly (`route.ts:1086-1154`). -/
def assemblePoint (sectionName : String) (tideData : List (String × TideInfo))
    (locationFactor : ℚ) (index : ℕ) (point : CoastlinePoint)
    (wave : WaveReading) (wind : WindReading) (biased : BiasedReading) : WaveDataPoint :=
  let waveHeightFeet := max 0.5 (min 15 (biased.finalHeight * 3.28084))
  let wavePeriodSeconds := max 5 (min 25 biased.finalPeriod)
  let windSpeedKnots := max 0 (min 30 biased.finalWindSpeed)
  let qualityScore := calculateWaveQuality
    { waveHeight := waveHeightFeet
      wavePeriod := wavePeriodSeconds
      windSpeed := windSpeedKnots
      waveDirection := some biased.finalDirection
      windDirection := some biased.finalWindDirection } locationFactor
  let waterTempF :=
    if wave.avgWaterTemp > 0 ∧ 45 ≤ wave.avgWaterTemp ∧ wave.avgWaterTemp ≤ 85
    then wave.avgWaterTemp else 62
  let airTempF :=
    if wind.avgAirTemp > 0 ∧ 35 ≤ wind.avgAirTemp ∧ wind.avgAirTemp ≤ 110
    then wind.avgAirTemp else 68
  let tide := (lookupTide tideData sectionName).getD ⟨2.5, .rising⟩
  { id := sectionSlug sectionName ++ "-" ++ toString index
    lat := point.lat
    lng := point.lng
    waveHeight := roundTo1 waveHeightFeet
    wavePeriod := roundTo1 wavePeriodSeconds
    waveDirection := jsRound biased.finalDirection
    windSpeed := roundTo1 windSpeedKnots
    waterTemp := roundTo1 waterTempF
    airTemp := roundTo1 airTempF
    tideHeight := roundTo1 tide.height
    tideTrend := tide.trend
    qualityScore := qualityScore }

/-! ## Section registry (`src/data/sections.ts`, `src/data/coastline.ts`,
`src/data/coastlineSections.ts`) -/

/-- `SECTION_LOCATION_FACTOR` (`src/data/sections.ts:2-15`). -/
def SECTION_LOCATION_FACTOR : List (String × ℚ) := [
  ("Malibu Point/Surfrider", 1.2),
  ("Palos Verdes Peninsula", 1.15),
  ("Zuma/Point Dume", 1.1),
  ("Oxnard/Ventura County", 1.05),
  ("Malibu Creek/Big Rock", 1.0),
  ("Topanga/Sunset Point", 0.95),
  ("Hermosa/Redondo Beach", 0.9),
  ("Manhattan Beach/Hermosa", 0.9),
  ("Redondo/Palos Verdes", 0.95),
  ("Will Rogers/Santa Monica", 0.8),
  ("Santa Monica Pier/Venice", 0.7),
  ("Venice/El Segundo", 0.75)]

/-- `getLocationFactor` (`src/utils/waveQuality.ts:232-235`). -/
def getLocationFactor (sectionName : String) : ℚ :=
  (SECTION_LOCATION_FACTOR.lookup sectionName).getD 1.0

/-- A `SECTION_CHARACTERISTICS` table entry (`src/data/sections.ts:17-36`);
`tempOffset` is carried but unused by the route. -/
structure SectionCharacteristics where
  heightMultiplier : ℚ
  periodMultiplier : ℚ
  directionOffset : ℚ
  windOffset : ℚ
  tempOffset : ℚ
  deriving Repr, DecidableEq

/-- `SECTION_CHARACTERISTICS` (`src/data/sections.ts:17-36`). -/
def SECTION_CHARACTERISTICS : List (String × SectionCharacteristics) := [
  ("Oxnard/Ventura County", ⟨1.15, 1.1, -8, 3, -2⟩),
  ("Zuma/Point Dume", ⟨1.1, 1.05, -5, 1, -1⟩),
  ("Malibu Point/Surfrider", ⟨1.0, 1.0, 0, -2, 0⟩),
  ("Malibu Creek/Big Rock", ⟨0.95, 0.98, 2, -1, 0⟩),
  ("Topanga/Sunset Point", ⟨0.9, 0.95, 5, 0, 1⟩),
  ("Will Rogers/Santa Monica", ⟨0.85, 0.92, 8, 2, 1⟩),
  ("Santa Monica Pier/Venice", ⟨0.8, 0.9, 10, 3, 2⟩),
  ("Venice/El Segundo", ⟨0.85, 0.88, 12, 4, 2⟩),
  ("Manhattan Beach/Hermosa", ⟨0.9, 0.9, 15, 3, 2⟩),
  ("Hermosa/Redondo Beach", ⟨0.88, 0.88, 18, 4, 3⟩),
  ("Redondo/Palos Verdes", ⟨0.92, 0.9, 20, 2, 2⟩),
  ("Palos Verdes Peninsula", ⟨1.05, 1.0, 25, 0, 1⟩)]

/-- `getSectionCharacteristics` (`route.ts:1182-1189`): table entry or the
neutral default (the route's default carries no `tempOffset`). -/
def getSectionCharacteristics (sectionName : String) : SectionBias :=
  match SECTION_CHARACTERISTICS.lookup sectionName with
  | some c => ⟨c.heightMultiplier, c.periodMultiplier, c.directionOffset, c.windOffset⟩
  | none => ⟨1.0, 1.0, 0, 0⟩

/-- `LA_COASTLINE_POINTS` (`src/data/coastline.ts`): the 53-point master
list sliced into sections. -/
def LA_COASTLINE_POINTS : List CoastlinePoint := [
    ⟨34.09413904941302, -119.07850285736356, "North Starting Point"⟩,
    ⟨34.0950, -119.0500, "Oxnard Beach"⟩,
    ⟨34.0900, -119.0200, "Silver Strand Beach"⟩,
    ⟨34.0823, -118.8001, "Zuma Beach"⟩,
    ⟨34.0790, -118.7800, "Broad Beach"⟩,
    ⟨34.0745, -118.7200, "Point Dume"⟩,
    ⟨34.0678, -118.7001, "Malibu Point"⟩,
    ⟨34.0630, -118.6900, "Surfrider Beach"⟩,
    ⟨34.0580, -118.6850, "Malibu Pier"⟩,
    ⟨34.0456, -118.6778, "Malibu Lagoon"⟩,
    ⟨34.0420, -118.6650, "Malibu Creek"⟩,
    ⟨34.0390, -118.6500, "Big Rock Beach"⟩,
    ⟨34.0380, -118.5800, "Las Flores Beach"⟩,
    ⟨34.0367, -118.5334, "Topanga Beach"⟩,
    ⟨34.0350, -118.5200, "Sunset Point"⟩,
    ⟨34.0320, -118.5100, "Castle Rock"⟩,
    ⟨34.0301, -118.5001, "Will Rogers Beach"⟩,
    ⟨34.0280, -118.4900, "Temescal Beach"⟩,
    ⟨34.0250, -118.4750, "Palisades Beach"⟩,
    ⟨34.0220, -118.4600, "Santa Monica State Beach"⟩,
    ⟨34.0189, -118.4445, "Santa Monica Pier"⟩,
    ⟨34.0150, -118.4350, "Ocean Park"⟩,
    ⟨34.0120, -118.4250, "Venice Pier"⟩,
    ⟨34.0101, -118.4001, "Venice Beach"⟩,
    ⟨34.0080, -118.4200, "Venice Breakwater"⟩,
    ⟨34.0050, -118.4300, "Marina del Rey"⟩,
    ⟨33.9991, -118.4181, "Dockweiler State Beach"⟩,
    ⟨33.9950, -118.4150, "Dockweiler Beach North"⟩,
    ⟨33.9900, -118.4120, "Dockweiler Beach South"⟩,
    ⟨33.9850, -118.4100, "Playa del Rey Beach"⟩,
    ⟨33.8844, -118.4085, "Manhattan Beach North"⟩,
    ⟨33.8823, -118.4062, "Manhattan Beach Pier"⟩,
    ⟨33.8801, -118.4039, "Manhattan Beach"⟩,
    ⟨33.8780, -118.4016, "Manhattan Beach South"⟩,
    ⟨33.8629, -118.3998, "Hermosa Beach North"⟩,
    ⟨33.8607, -118.3975, "Hermosa Beach Pier"⟩,
    ⟨33.8585, -118.3952, "Hermosa Beach"⟩,
    ⟨33.8563, -118.3929, "Hermosa Beach South"⟩,
    ⟨33.8485, -118.3889, "Redondo Beach North"⟩,
    ⟨33.8430, -118.3855, "Redondo Beach Pier"⟩,
    ⟨33.8375, -118.3821, "Redondo Beach"⟩,
    ⟨33.8320, -118.3787, "Redondo Beach South"⟩,
    ⟨33.8265, -118.3753, "Torrance Beach North"⟩,
    ⟨33.8210, -118.3719, "Torrance Beach"⟩,
    ⟨33.8155, -118.3685, "Torrance Beach South"⟩,
    ⟨33.8100, -118.3651, "RAT Beach (Redondo Beach)"⟩,
    ⟨33.7900, -118.3500, "Malaga Cove"⟩,
    ⟨33.7800, -118.3400, "Bluff Cove"⟩,
    ⟨33.8445, -118.3170, "Palos Verdes Peninsula"⟩,
    ⟨33.8200, -118.3300, "Abalone Cove"⟩,
    ⟨33.7945, -118.3370, "Point Vicente"⟩,
    ⟨33.7700, -118.3500, "Portuguese Point"⟩,
    ⟨33.7445, -118.3870, "Rancho Palos Verdes"⟩]

/-- A section's bounding box. -/
structure SectionBounds where
  north : ℚ
  south : ℚ
  west : ℚ
  east : ℚ
  deriving Repr, DecidableEq

/-- `CoastlineSection` (`src/data/coastlineSections.ts`). -/
structure CoastlineSection where
  name : String
  pointSlice : ℕ × ℕ
  points : List CoastlinePoint
  bounds : SectionBounds
  deriving Repr, DecidableEq

/-- `Array.prototype.slice(a, b)` on the point list. -/
def jsSlice (l : List CoastlinePoint) (a b : ℕ) : List CoastlinePoint :=
  (l.drop a).take (b - a)

/-- `COASTLINE_SECTIONS` (`src/data/coastlineSections.ts:148-221`). -/
def COASTLINE_SECTIONS : List CoastlineSection := [
  { name := "Oxnard/Ventura County", pointSlice := (0, 3),
    points := jsSlice LA_COASTLINE_POINTS 0 3,
    bounds := ⟨34.1950, 33.9900, -119.2785, -118.8200⟩ },
  { name := "Zuma/Point Dume", pointSlice := (3, 6),
    points := jsSlice LA_COASTLINE_POINTS 3 6,
    bounds := ⟨34.1823, 33.9745, -119.0001, -118.5200⟩ },
  { name := "Malibu Point/Surfrider", pointSlice := (6, 10),
    points := jsSlice LA_COASTLINE_POINTS 6 10,
    bounds := ⟨34.1678, 33.9456, -118.9001, -118.4778⟩ },
  { name := "Malibu Creek/Big Rock", pointSlice := (10, 13),
    points := jsSlice LA_COASTLINE_POINTS 10 13,
    bounds := ⟨34.1420, 33.9380, -118.7650, -118.3800⟩ },
  { name := "Topanga/Sunset Point", pointSlice := (13, 16),
    points := jsSlice LA_COASTLINE_POINTS 13 16,
    bounds := ⟨34.1367, 33.9320, -118.6334, -118.3100⟩ },
  { name := "Will Rogers/Santa Monica", pointSlice := (16, 21),
    points := jsSlice LA_COASTLINE_POINTS 16 21,
    bounds := ⟨34.1301, 33.9189, -118.6001, -118.2445⟩ },
  { name := "Santa Monica Pier/Venice", pointSlice := (21, 26),
    points := jsSlice LA_COASTLINE_POINTS 21 26,
    bounds := ⟨34.1150, 33.9050, -118.6350, -118.2000⟩ },
  { name := "Venice/El Segundo", pointSlice := (26, 30),
    points := jsSlice LA_COASTLINE_POINTS 26 30,
    bounds := ⟨34.0991, 33.8850, -118.5181, -118.2100⟩ },
  { name := "Manhattan Beach/Hermosa", pointSlice := (30, 38),
    points := jsSlice LA_COASTLINE_POINTS 30 38,
    bounds := ⟨33.9844, 33.7563, -118.5085, -118.1929⟩ },
  { name := "Hermosa/Redondo Beach", pointSlice := (38, 41),
    points := jsSlice LA_COASTLINE_POINTS 38 41,
    bounds := ⟨33.9485, 33.7375, -118.4889, -118.1821⟩ },
  { name := "Redondo/Palos Verdes", pointSlice := (41, 48),
    points := jsSlice LA_COASTLINE_POINTS 41 48,
    bounds := ⟨33.9320, 33.6800, -118.4787, -118.1400⟩ },
  { name := "Palos Verdes Peninsula", pointSlice := (48, 53),
    points := jsSlice LA_COASTLINE_POINTS 48 53,
    bounds := ⟨33.9445, 33.6445, -118.4870, -118.1170⟩ }]

/-- Modelled from the spec: `isInMarinaExclusionZone` is imported by the
route from `@/data/coastline`, whose defining source is missing from the
snapshot.  Spec §4.4 describes it as membership in a hard-coded rectangular
exclusion zone around a marina entrance; the rectangle corners are taken
from the parallel hard-coded marina rectangle in
`src/components/CoastlineLayer.tsx:145-147`. -/
def isInMarinaExclusionZone (lat lng : ℚ) : Bool :=
  if 33.96097999713439 ≤ lat ∧ lat ≤ 33.96473731214972 ∧
      -118.45981872167121 ≤ lng ∧ lng ≤ -118.45598554857159
  then true else false

/-- The geographic prefilter of candidate stations (`route.ts:855-872`). -/
def stationInBounds (b : SectionBounds) (s : OpenMeteoResponse) : Bool :=
  if b.south ≤ s.latitude ∧ s.latitude ≤ b.north ∧
      b.west ≤ s.longitude ∧ s.longitude ≤ b.east
  then true else false

/-- `map` with the JavaScript callback index, starting at `n`. -/
def mapWithIndexFrom {α β : Type} (f : ℕ → α → β) (n : ℕ) : List α → List β
  | [] => []
  | a :: l => f n a :: mapWithIndexFrom f (n + 1) l

/-- `Array.prototype.map((x, index) => ...)`. -/
def mapWithIndex {α β : Type} (f : ℕ → α → β) (l : List α) : List β :=
  mapWithIndexFrom f 0 l

/-- The body of the per-point `map` callback (`route.ts:883-1155`):
interpolate, bias-correct, score and assemble one output record. -/
def processPoint (waveStationsToUse windStationsToUse : List OpenMeteoResponse)
    (dist : OpenMeteoResponse → CoastlinePoint → ℚ) (sec : CoastlineSection)
    (tideData : List (String × TideInfo)) (d : RandomDraws) (index : ℕ)
    (point : CoastlinePoint) : WaveDataPoint :=
  let sectionMultipliers := getSectionCharacteristics sec.name
  let reading := interpolatePoint waveStationsToUse windStationsToUse dist point d
  let biased := applySectionBias reading.1 reading.2 sectionMultipliers
  assemblePoint sec.name tideData (getLocationFactor sec.name) index point
    reading.1 reading.2 biased

/-- `processSectionWaveData` (`route.ts:840-1156`): reject empty station
pools, prefilter stations to the section bounds (falling back to the full
pool), drop marina-exclusion-zone points, then map the per-point body over
the remaining points.  The per-point draws are indexed by the callback
index.  The source's inner no-nearby-stations `throw` is unreachable here
because the station pool in use is non-empty, so the body is total. -/
def processSectionWaveData (waveData windData : List OpenMeteoResponse)
    (dist : OpenMeteoResponse → CoastlinePoint → ℚ) (sec : CoastlineSection)
    (tideData : List (String × TideInfo)) (draws : ℕ → RandomDraws) :
    Except String (List WaveDataPoint) :=
  if waveData.isEmpty then .error "No wave data available from Open-Meteo"
  else if windData.isEmpty then .error "No wind data available from Open-Meteo"
  else
    let sectionWaveStations := waveData.filter (stationInBounds sec.bounds)
    let sectionWindStations := windData.filter (stationInBounds sec.bounds)
    let waveStationsToUse :=
      if sectionWaveStations.length > 0 then sectionWaveStations else waveData
    let windStationsToUse :=
      if sectionWindStations.length > 0 then sectionWindStations else windData
    .ok (mapWithIndex
      (fun index point =>
        processPoint waveStationsToUse windStationsToUse dist sec tideData
          (draws index) index point)
      (sec.points.filter fun point => !isInMarinaExclusionZone point.lat point.lng))

/-- `processWaveDataForCoastline` (`route.ts:823-836`): run every section in
list order and concatenate, aborting the run on a section error.  The
per-point random draws are supplied per section name. -/
def processWaveDataForCoastline (waveData windData : List OpenMeteoResponse)
    (dist : OpenMeteoResponse → CoastlinePoint → ℚ)
    (tideData : List (String × TideInfo)) (draws : String → ℕ → RandomDraws) :
    Except String (List WaveDataPoint) :=
  (COASTLINE_SECTIONS.mapM fun sec =>
    processSectionWaveData waveData windData dist sec tideData
      (draws sec.name)).map List.flatten

/-- Wave-family data of a station is entirely null (current and hourly). -/
def waveDataAllNull (s : OpenMeteoResponse) : Prop :=
  s.current.wave_height = none ∧ s.current.wave_period = none ∧
    s.current.wave_direction = none ∧ s.current.sea_surface_temperature = none ∧
    (∀ x ∈ s.hourly.wave_height, x = none) ∧ (∀ x ∈ s.hourly.wave_period, x = none) ∧
    (∀ x ∈ s.hourly.wave_direction, x = none) ∧
    (∀ x ∈ s.hourly.swell_wave_height, x = none) ∧
    (∀ x ∈ s.hourly.swell_wave_period, x = none) ∧
    (∀ x ∈ s.hourly.sea_surface_temperature, x = none)

/-- Wind-family data of a station is entirely null (current and hourly). -/
def windDataAllNull (s : OpenMeteoResponse) : Prop :=
  s.current.wind_speed_10m = none ∧ s.current.wind_direction_10m = none ∧
    s.current.temperature_2m = none ∧
    (∀ x ∈ s.hourly.wind_speed_10m, x = none) ∧
    (∀ x ∈ s.hourly.wind_direction_10m, x = none) ∧
    (∀ x ∈ s.hourly.temperature_2m, x = none)

/-- A station whose every data field is null, as used to witness the
fallback path. -/
def nullStation : OpenMeteoResponse :=
  { latitude := 34
    longitude := -118.4
    current := ⟨none, none, none, none, none, none, none⟩
    hourly := ⟨[], [], [], [], [], [], [], [], []⟩ }

/-- The list a section contributes to the run (the `.ok` payload of
`processSectionWaveData`, `route.ts:881-1155`). -/
def sectionOutput (waveData windData : List OpenMeteoResponse)
    (dist : OpenMeteoResponse → CoastlinePoint → ℚ) (sec : CoastlineSection)
    (tideData : List (String × TideInfo)) (draws : ℕ → RandomDraws) :
    List WaveDataPoint :=
  let sectionWaveStations := waveData.filter (stationInBounds sec.bounds)
  let sectionWindStations := windData.filter (stationInBounds sec.bounds)
  let waveStationsToUse :=
    if sectionWaveStations.length > 0 then sectionWaveStations else waveData
  let windStationsToUse :=
    if sectionWindStations.length > 0 then sectionWindStations else windData
  mapWithIndex
    (fun index point =>
      processPoint waveStationsToUse windStationsToUse dist sec tideData
        (draws index) index point)
    (sec.points.filter fun point => !isInMarinaExclusionZone point.lat point.lng)

/-- The id every record of a section gets at a given callback index. -/
def pointId (sec : CoastlineSection) (index : ℕ) : String :=
  sectionSlug sec.name ++ "-" ++ toString index

/-- What C8 expects the pipeline to emit, written from the spec's words:
section list order, then point list order within each section with
marina-exclusion-zone points dropped, each record carrying the
`slug-index` id and its point's coordinates. -/
def pipelineSkeleton : List (String × ℚ × ℚ) :=
  (COASTLINE_SECTIONS.map fun sec =>
    mapWithIndex (fun index point => (pointId sec index, point.lat, point.lng))
      (sec.points.filter fun point => !isInMarinaExclusionZone point.lat point.lng)).flatten

/-- The spec's `clamp(v, lo, hi)`, written as in the spec's own wording. -/
def clampSpec (v lo hi : ℚ) : ℚ :=
  min hi (max lo v)

/-! ## Shared helper lemmas for the scoring engine -/

/-- The final clamp-and-round of `calculateWaveQuality` always lands in
`[0, 100]`, whatever the unclamped total score is. -/
theorem jsRound_clamp_mem (t : ℚ) :
    0 ≤ jsRound (max 0 (min 100 t)) ∧ jsRound (max 0 (min 100 t)) ≤ 100 := by
  constructor
  · apply Int.le_floor.mpr
    have h0 : (0 : ℚ) ≤ max 0 (min 100 t) := le_max_left _ _
    push_cast
    linarith
  · have h1 : max 0 (min 100 t) ≤ 100 := by
      apply max_le (by norm_num)
      exact le_trans (min_le_left _ _) (by norm_num)
    have : jsRound (max 0 (min 100 t)) < 101 := by
      apply Int.floor_lt.mpr
      push_cast
      linarith
    omega

/-- `calculateWaveQuality` scores are bounded integers. -/
theorem calculateWaveQuality_mem (input : WaveQualityInput) (locationFactor : ℚ) :
    0 ≤ calculateWaveQuality input locationFactor ∧
      calculateWaveQuality input locationFactor ≤ 100 := by
  unfold calculateWaveQuality
  exact jsRound_clamp_mem _


/-! ## Claims C1, C2, C5, C10 -/

/-- C1 counterexample: in the shipped configuration the three condition
weights sum to 0.90, which is not within `1e-9` of `1.0`. -/
theorem shipped_condition_weights_do_not_sum_to_one :
    ¬ (|WAVE_QUALITY_CONFIG.weights.waveHeight + WAVE_QUALITY_CONFIG.weights.wavePeriod +
        WAVE_QUALITY_CONFIG.weights.windSpeed - 1| ≤ 1 / 1000000000) := by
  norm_num [WAVE_QUALITY_CONFIG, abs]

/-- C1 (amended): the shipped condition weights sum to 0.90, and only
together with the location-factor weight does the weight table sum to 1.0. -/
theorem shipped_weight_table_sums :
    WAVE_QUALITY_CONFIG.weights.waveHeight + WAVE_QUALITY_CONFIG.weights.wavePeriod +
        WAVE_QUALITY_CONFIG.weights.windSpeed = 9 / 10 ∧
      WAVE_QUALITY_CONFIG.weights.waveHeight + WAVE_QUALITY_CONFIG.weights.wavePeriod +
          WAVE_QUALITY_CONFIG.weights.windSpeed + WAVE_QUALITY_CONFIG.weights.locationFactor
        = 1 := by
  norm_num [WAVE_QUALITY_CONFIG]

/-- C2 counterexample: the reading `4.5 ft / 14 s / 25 kts onshore` with
location factor 1.2 scores 43, which is not in the "poor" band (< 35). -/
theorem onshore_example_not_poor :
    calculateWaveQuality ⟨4.5, 14, 25, some 250, some 250⟩ 1.2 = 43 ∧
      ¬ (calculateWaveQuality ⟨4.5, 14, 25, some 250, some 250⟩ 1.2 < 35) := by
  norm_num [calculateWaveQuality, calculateWindScore, baseWindSpeedScore,
    calculateWaveHeightScore, calculateWavePeriodScore, calculateWindDirectionModifier,
    jsOrDefault, normalize360, jsMod, jsTrunc, jsRound, WAVE_QUALITY_CONFIG, max_def, min_def]

/-- C2 (amended): the offshore example reading scores 94 (≥ 60, the
"good"–"excellent" band); the onshore 25-knot variant scores 43, which lies
in the "fair" band (`35 ≤ score < 55`), not the "poor" band. -/
theorem end_to_end_example_scores :
    calculateWaveQuality ⟨4.5, 14, 3, some 250, some 70⟩ 1.2 = 94 ∧
      calculateWaveQuality ⟨4.5, 14, 3, some 250, some 70⟩ 1.2 ≥ 60 ∧
      calculateWaveQuality ⟨4.5, 14, 25, some 250, some 250⟩ 1.2 = 43 ∧
      calculateWaveQuality ⟨4.5, 14, 25, some 250, some 250⟩ 1.2 < 55 := by
  norm_num [calculateWaveQuality, calculateWindScore, baseWindSpeedScore,
    calculateWaveHeightScore, calculateWavePeriodScore, calculateWindDirectionModifier,
    jsOrDefault, normalize360, jsMod, jsTrunc, jsRound, WAVE_QUALITY_CONFIG, max_def, min_def]

/-- C5: for every input reading and every location factor, the quality score
is an integer (the function's codomain is `ℤ`) in `[0, 100]`. -/
theorem calculateWaveQuality_range (input : WaveQualityInput) (locationFactor : ℚ) :
    0 ≤ calculateWaveQuality input locationFactor ∧
      calculateWaveQuality input locationFactor ≤ 100 :=
  calculateWaveQuality_mem input locationFactor

/-- C10: when either direction is missing, `calculateWindScore` is the bare
wind-speed curve — no direction modifier is applied — although with both
directions present the same speed score can be scaled by 0.3 (onshore) or
1.4 (offshore). -/
theorem windScore_no_modifier_when_direction_missing
    (ws : ℚ) (d : Option ℚ) (optimal : Option OptimalConfig) :
    calculateWindScore ws none d optimal
        = (if ws < 0 then 0 else baseWindSpeedScore ws optimal) ∧
      calculateWindScore ws d none optimal
        = (if ws < 0 then 0 else baseWindSpeedScore ws optimal) ∧
      calculateWindScore 5 (some 250) (some 250) (some WAVE_QUALITY_CONFIG.optimal)
        = baseWindSpeedScore 5 (some WAVE_QUALITY_CONFIG.optimal) * 0.3 ∧
      calculateWindScore 5 (some 70) (some 250) (some WAVE_QUALITY_CONFIG.optimal)
        = baseWindSpeedScore 5 (some WAVE_QUALITY_CONFIG.optimal) * 1.4 := by
  refine ⟨?_, ?_, ?_, ?_⟩
  · unfold calculateWindScore
    rcases d with _ | v <;> simp
  · unfold calculateWindScore
    rcases d with _ | v <;> simp
  · norm_num [calculateWindScore, calculateWindDirectionModifier, normalize360, jsMod, jsTrunc]
  · norm_num [calculateWindScore, calculateWindDirectionModifier, normalize360, jsMod, jsTrunc]

/-! ## Claim C4: height-score monotonicity -/

/-- Closed form of the height curve on the "tiny" branch `(0, 1.5)`. -/
theorem heightScore_eq_tiny (h : ℚ) (h0 : 0 < h) (hh : h < 3/2) :
    calculateWaveHeightScore h WAVE_QUALITY_CONFIG.optimal = h * (133/1000) := by
  simp only [calculateWaveHeightScore, WAVE_QUALITY_CONFIG]
  rw [if_neg (by linarith), if_pos (by norm_num; linarith),
    max_eq_right (by positivity)]
  norm_num

/-- Closed form of the height curve on the "small" branch `[1.5, 3)`. -/
theorem heightScore_eq_small (h : ℚ) (h0 : 3/2 ≤ h) (hh : h < 3) :
    calculateWaveHeightScore h WAVE_QUALITY_CONFIG.optimal = h / 5 - 1/10 := by
  simp only [calculateWaveHeightScore, WAVE_QUALITY_CONFIG]
  rw [if_neg (by linarith), if_neg (by norm_num; linarith), if_pos (by norm_num; linarith)]
  norm_num
  ring_nf

/-- Closed form of the height curve on the optimal branch `[3, 6]`. -/
theorem heightScore_eq_optimal (h : ℚ) (h0 : 3 ≤ h) (hh : h ≤ 6) :
    calculateWaveHeightScore h WAVE_QUALITY_CONFIG.optimal = h / 6 := by
  simp only [calculateWaveHeightScore, WAVE_QUALITY_CONFIG]
  rw [if_neg (by linarith), if_neg (by norm_num; linarith), if_neg (by norm_num; linarith),
    if_pos (by norm_num; linarith)]
  norm_num
  ring_nf

/-- Closed form of the height curve on the "large" branch `(6, 8]`. -/
theorem heightScore_eq_large (h : ℚ) (h0 : 6 < h) (hh : h ≤ 8) :
    calculateWaveHeightScore h WAVE_QUALITY_CONFIG.optimal = 7/5 - h / 10 := by
  simp only [calculateWaveHeightScore, WAVE_QUALITY_CONFIG]
  rw [if_neg (by linarith), if_neg (by norm_num; linarith), if_neg (by norm_num; linarith),
    if_neg (by norm_num; linarith), if_pos (by linarith)]
  norm_num
  ring_nf

/-- Closed form of the height curve beyond 8 ft: the excess is capped at 4. -/
theorem heightScore_eq_huge (h : ℚ) (h0 : 8 < h) :
    calculateWaveHeightScore h WAVE_QUALITY_CONFIG.optimal
      = 2/5 - min (h - 8) 4 / 20 := by
  simp only [calculateWaveHeightScore, WAVE_QUALITY_CONFIG]
  rw [if_neg (by linarith), if_neg (by norm_num; linarith), if_neg (by norm_num; linarith),
    if_neg (by norm_num; linarith), if_neg (by linarith)]
  ring_nf

/-- C4 counterexample: beyond 12 ft the height component is constant (0.2),
so increasing height from 12 ft to 13 ft does not strictly decrease it. -/
theorem heightScore_not_strictly_decreasing_beyond_12 :
    ¬ (calculateWaveHeightScore 13 WAVE_QUALITY_CONFIG.optimal
        < calculateWaveHeightScore 12 WAVE_QUALITY_CONFIG.optimal) := by
  rw [heightScore_eq_huge 13 (by norm_num), heightScore_eq_huge 12 (by norm_num),
    min_eq_right (by norm_num), min_eq_right (by norm_num)]
  norm_num

/-- C4 (amended): with the shipped optimal band `[3, 6]` ft, the height
component score strictly increases on `[0, 3]`; it strictly decreases on
`[6, 12]`; and from 12 ft on the excess is capped, so the score is constant
at 0.2 rather than strictly decreasing. -/
theorem heightScore_monotonicity (h₁ h₂ : ℚ) :
    (0 ≤ h₁ → h₁ < h₂ → h₂ ≤ 3 →
      calculateWaveHeightScore h₁ WAVE_QUALITY_CONFIG.optimal
        < calculateWaveHeightScore h₂ WAVE_QUALITY_CONFIG.optimal) ∧
    (6 ≤ h₁ → h₁ < h₂ → h₂ ≤ 12 →
      calculateWaveHeightScore h₂ WAVE_QUALITY_CONFIG.optimal
        < calculateWaveHeightScore h₁ WAVE_QUALITY_CONFIG.optimal) ∧
    (12 ≤ h₁ →
      calculateWaveHeightScore h₁ WAVE_QUALITY_CONFIG.optimal = 1/5) := by
  refine ⟨?_, ?_, ?_⟩
  · intro h0 hlt hle
    rcases eq_or_lt_of_le h0 with h0 | h0
    · have e1 : calculateWaveHeightScore h₁ WAVE_QUALITY_CONFIG.optimal = 0 := by
        simp only [calculateWaveHeightScore]
        rw [if_pos (by linarith)]
      rw [e1]
      rcases lt_or_le h₂ (3/2) with hc | hc
      · rw [heightScore_eq_tiny h₂ (by linarith) hc]
        nlinarith
      · rcases lt_or_le h₂ 3 with hc3 | hc3
        · rw [heightScore_eq_small h₂ hc hc3]
          linarith
        · rw [heightScore_eq_optimal h₂ hc3 (by linarith)]
          linarith
    · rcases lt_or_le h₁ (3/2) with hb1 | hb1
      · rw [heightScore_eq_tiny h₁ h0 hb1]
        rcases lt_or_le h₂ (3/2) with hc | hc
        · rw [heightScore_eq_tiny h₂ (by linarith) hc]
          nlinarith
        · rcases lt_or_le h₂ 3 with hc3 | hc3
          · rw [heightScore_eq_small h₂ hc hc3]
            nlinarith
          · rw [heightScore_eq_optimal h₂ hc3 (by linarith)]
            nlinarith
      · rcases lt_or_le h₂ 3 with hc3 | hc3
        · rw [heightScore_eq_small h₁ hb1 (by linarith),
            heightScore_eq_small h₂ (by linarith) hc3]
          linarith
        · rw [heightScore_eq_small h₁ hb1 (by linarith),
            heightScore_eq_optimal h₂ hc3 (by linarith)]
          linarith
  · intro h6 hlt hle
    rcases eq_or_lt_of_le h6 with h6 | h6
    · rw [heightScore_eq_optimal h₁ (by linarith) (by linarith)]
      rcases le_or_lt h₂ 8 with hc | hc
      · rw [heightScore_eq_large h₂ (by linarith) hc]
        linarith
      · rw [heightScore_eq_huge h₂ hc, min_eq_left (by linarith)]
        linarith
    · rcases le_or_lt h₁ 8 with hb | hb
      · rw [heightScore_eq_large h₁ h6 hb]
        rcases le_or_lt h₂ 8 with hc | hc
        · rw [heightScore_eq_large h₂ (by linarith) hc]
          linarith
        · rw [heightScore_eq_huge h₂ hc, min_eq_left (by linarith)]
          linarith
      · rw [heightScore_eq_huge h₁ hb, heightScore_eq_huge h₂ (by linarith),
          min_eq_left (by linarith), min_eq_left (by linarith)]
        linarith
  · intro h12
    rw [heightScore_eq_huge h₁ (by linarith), min_eq_right (by linarith)]
    norm_num

/-- Witness for the amended C4 at concrete heights: the rising region at
`1 < 2`, the falling region at `7 < 9`, and the plateau at 12. -/
theorem heightScore_monotonicity_witness :
    calculateWaveHeightScore 1 WAVE_QUALITY_CONFIG.optimal
        < calculateWaveHeightScore 2 WAVE_QUALITY_CONFIG.optimal ∧
      calculateWaveHeightScore 9 WAVE_QUALITY_CONFIG.optimal
        < calculateWaveHeightScore 7 WAVE_QUALITY_CONFIG.optimal ∧
      calculateWaveHeightScore 12 WAVE_QUALITY_CONFIG.optimal = 1/5 :=
  ⟨(heightScore_monotonicity 1 2).1 (by norm_num) (by norm_num) (by norm_num),
    (heightScore_monotonicity 7 9).2.1 (by norm_num) (by norm_num) (by norm_num),
    (heightScore_monotonicity 12 13).2.2 (by norm_num)⟩

/-! ## Claim C3: offshore vs onshore -/

/-- `x % 360` for non-negative `x` is the floor-based remainder. -/
theorem jsMod_360_of_nonneg (x : ℚ) (hx : 0 ≤ x) :
    jsMod x 360 = 360 * Int.fract (x / 360) := by
  unfold jsMod jsTrunc
  rw [if_pos (div_nonneg hx (by norm_num)), Int.fract]
  field_simp

/-- `x % 360` for negative `x` that is an exact multiple of 360. -/
theorem jsMod_360_of_neg_fract_zero (x : ℚ) (hx : x < 0)
    (hf : Int.fract (x / 360) = 0) :
    jsMod x 360 = 0 := by
  unfold jsMod jsTrunc
  have hq : ¬ (0 ≤ x / 360) := by
    intro hge
    have : x / 360 < 0 := div_neg_of_neg_of_pos hx (by norm_num)
    linarith
  rw [if_neg hq]
  have hxq : x / 360 = (⌊x / 360⌋ : ℚ) := by
    rw [Int.fract] at hf
    linarith
  rw [hxq, Int.ceil_intCast]
  have : x = 360 * (⌊x / 360⌋ : ℚ) := by
    have h1 : x / 360 * 360 = x := by field_simp
    rw [hxq] at h1
    linarith
  linarith

/-- `x % 360` for negative `x` not a multiple of 360: the JavaScript
truncated remainder is the floor remainder minus 360. -/
theorem jsMod_360_of_neg_fract_pos (x : ℚ) (hx : x < 0)
    (hf : 0 < Int.fract (x / 360)) :
    jsMod x 360 = 360 * Int.fract (x / 360) - 360 := by
  unfold jsMod jsTrunc
  have hq : ¬ (0 ≤ x / 360) := by
    intro hge
    have : x / 360 < 0 := div_neg_of_neg_of_pos hx (by norm_num)
    linarith
  rw [if_neg hq]
  have hceil : ⌈x / 360⌉ = ⌊x / 360⌋ + 1 := by
    rw [Int.ceil_eq_iff]
    have hlt : Int.fract (x / 360) < 1 := Int.fract_lt_one _
    rw [Int.fract] at hf hlt
    constructor
    · push_cast
      linarith
    · push_cast
      linarith
  rw [hceil, Int.fract]
  push_cast
  have h1 : 360 * (x / 360) = x := by field_simp
  linarith

/-- The direction normalisation of the wind-direction modifier computes the
mathematical residue `360 * fract (x / 360)`, for every rational angle. -/
theorem normalize360_eq (x : ℚ) : normalize360 x = 360 * Int.fract (x / 360) := by
  unfold normalize360
  have hf0 : 0 ≤ Int.fract (x / 360) := Int.fract_nonneg _
  have hf1 : Int.fract (x / 360) < 1 := Int.fract_lt_one _
  rcases le_or_lt 0 x with hx | hx
  · rw [jsMod_360_of_nonneg x hx,
      jsMod_360_of_nonneg _ (by linarith)]
    have harg : (360 * Int.fract (x / 360) + 360) / 360 = Int.fract (x / 360) + 1 := by
      field_simp
      ring
    rw [harg, Int.fract_add_one, Int.fract_eq_self.mpr ⟨hf0, hf1⟩]
  · rcases eq_or_lt_of_le hf0 with hfz | hfpos
    · rw [jsMod_360_of_neg_fract_zero x hx hfz.symm, zero_add,
        jsMod_360_of_nonneg _ (by norm_num)]
      rw [show (360:ℚ) / 360 = ((1:ℤ) : ℚ) by norm_num, Int.fract_intCast, ← hfz]
    · rw [jsMod_360_of_neg_fract_pos x hx hfpos,
        show 360 * Int.fract (x / 360) - 360 + 360 = 360 * Int.fract (x / 360) by ring,
        jsMod_360_of_nonneg _ (by linarith)]
      have harg : 360 * Int.fract (x / 360) / 360 = Int.fract (x / 360) := by
        field_simp
      rw [harg, Int.fract_eq_self.mpr ⟨hf0, hf1⟩]

/-- Normalised directions live in `[0, 360)`. -/
theorem normalize360_mem (x : ℚ) : 0 ≤ normalize360 x ∧ normalize360 x < 360 := by
  rw [normalize360_eq]
  have hf0 : 0 ≤ Int.fract (x / 360) := Int.fract_nonneg _
  have hf1 : Int.fract (x / 360) < 1 := Int.fract_lt_one _
  constructor <;> linarith

/-- Normalising a direction shifted by 180° lands exactly 180 away from the
normalised direction, on whichever side keeps the result in `[0, 360)`. -/
theorem normalize360_add_180 (x : ℚ) :
    normalize360 (x + 180)
      = if normalize360 x < 180 then normalize360 x + 180 else normalize360 x - 180 := by
  rw [normalize360_eq, normalize360_eq]
  have harg : (x + 180) / 360 = x / 360 + 1/2 := by ring
  rw [harg]
  have hsplit : x / 360 = (⌊x / 360⌋ : ℚ) + Int.fract (x / 360) := by
    rw [Int.fract]
    ring
  have hf0 : 0 ≤ Int.fract (x / 360) := Int.fract_nonneg _
  have hf1 : Int.fract (x / 360) < 1 := Int.fract_lt_one _
  have e2 : Int.fract (x / 360 + 1/2) = Int.fract (Int.fract (x / 360) + 1/2) := by
    conv_lhs => rw [hsplit]
    rw [add_assoc, Int.fract_int_add]
  rw [e2]
  rcases lt_or_le (Int.fract (x / 360)) (1/2) with hc | hc
  · rw [if_pos (by linarith), Int.fract_eq_self.mpr ⟨by linarith, by linarith⟩]
    ring
  · rw [if_neg (by linarith)]
    have e3 : Int.fract (Int.fract (x / 360) + 1/2)
        = Int.fract (Int.fract (x / 360) + 1/2 - 1) := by
      rw [show Int.fract (x / 360) + 1/2 - 1
            = Int.fract (x / 360) + 1/2 - ((1:ℤ) : ℚ) by push_cast; ring,
        Int.fract_sub_int]
    rw [e3, Int.fract_eq_self.mpr ⟨by linarith, by linarith⟩]
    ring

/-- Any pair of directions whose normalised difference is exactly 180°
classifies as offshore: modifier 1.4. -/
theorem windDirectionModifier_of_diff_180 (a b : ℚ)
    (h : |normalize360 a - normalize360 b| = 180) :
    calculateWindDirectionModifier a b = 1.4 := by
  simp only [calculateWindDirectionModifier, h]
  norm_num

/-- Opposite directions (wind = wave + 180°) always classify as offshore:
modifier 1.4. -/
theorem windDirectionModifier_offshore (wd : ℚ) :
    calculateWindDirectionModifier (wd + 180) wd = 1.4 := by
  apply windDirectionModifier_of_diff_180
  rw [normalize360_add_180]
  rcases lt_or_le (normalize360 wd) 180 with hc | hc
  · rw [if_pos hc, show normalize360 wd + 180 - normalize360 wd = (180:ℚ) by ring]
    norm_num
  · rw [if_neg (by linarith), show normalize360 wd - 180 - normalize360 wd = (-180:ℚ) by ring]
    norm_num

/-- Identical directions always classify as onshore: modifier 0.3. -/
theorem windDirectionModifier_onshore (wd : ℚ) :
    calculateWindDirectionModifier wd wd = 0.3 := by
  simp only [calculateWindDirectionModifier, sub_self, abs_zero]
  norm_num

/-- The base wind-speed curve is never negative at the shipped
configuration. -/
theorem baseWindSpeedScore_nonneg (ws : ℚ) :
    0 ≤ baseWindSpeedScore ws (some WAVE_QUALITY_CONFIG.optimal) := by
  have hmin : min (ws - 18) 12 ≤ 12 := min_le_right _ _
  simp only [baseWindSpeedScore, jsOrDefault, WAVE_QUALITY_CONFIG, Option.map_some]
  norm_num
  split_ifs <;> linarith

/-- C3 counterexample: at 30 knots the wind-speed score is already 0, so the
offshore configuration scores exactly the same as the onshore one — for the
example reading `4.5 ft / 14 s`, location factor 1.2, wave direction 250°,
both configurations score 42, refuting the strict inequality. -/
theorem offshore_not_strictly_better_at_30kts :
    calculateWaveQuality ⟨4.5, 14, 30, some 250, some (250 + 180)⟩ 1.2 = 42 ∧
      calculateWaveQuality ⟨4.5, 14, 30, some 250, some 250⟩ 1.2 = 42 ∧
      ¬ (calculateWaveQuality ⟨4.5, 14, 30, some 250, some 250⟩ 1.2
          < calculateWaveQuality ⟨4.5, 14, 30, some 250, some (250 + 180)⟩ 1.2) := by
  norm_num [calculateWaveQuality, calculateWindScore, baseWindSpeedScore,
    calculateWaveHeightScore, calculateWavePeriodScore, calculateWindDirectionModifier,
    jsOrDefault, normalize360, jsMod, jsTrunc, jsRound, WAVE_QUALITY_CONFIG, max_def, min_def]

/-- C3 (amended): for every non-negative wind speed (and any height, period,
wave direction and location factor), the offshore configuration
(wind direction = wave direction + 180°) scores at least as high as the
onshore configuration (wind direction = wave direction).  The inequality is
not strict in general: when the wind-speed score reaches 0 (≥ 30 kts), or
when rounding absorbs the gap, both configurations produce equal scores. -/
theorem offshore_ge_onshore (h p ws lf wd : ℚ) (hws : 0 ≤ ws) :
    calculateWaveQuality ⟨h, p, ws, some wd, some wd⟩ lf
      ≤ calculateWaveQuality ⟨h, p, ws, some wd, some (wd + 180)⟩ lf := by
  have hbase := baseWindSpeedScore_nonneg ws
  simp only [calculateWaveQuality, calculateWindScore, if_neg (not_lt.mpr hws),
    windDirectionModifier_offshore, windDirectionModifier_onshore]
  apply Int.floor_le_floor
  have hwind : baseWindSpeedScore ws (some WAVE_QUALITY_CONFIG.optimal) * 0.3
      ≤ baseWindSpeedScore ws (some WAVE_QUALITY_CONFIG.optimal) * 1.4 := by
    nlinarith
  gcongr
  all_goals norm_num [WAVE_QUALITY_CONFIG]

/-- Witness for the amended C3 at the example reading with a 10-knot wind. -/
theorem offshore_ge_onshore_witness :
    calculateWaveQuality ⟨4.5, 14, 10, some 250, some 250⟩ 1.2
      ≤ calculateWaveQuality ⟨4.5, 14, 10, some 250, some (250 + 180)⟩ 1.2 :=
  offshore_ge_onshore 4.5 14 10 1.2 250 (by norm_num)

/-! ## Claim C7: section bias corrector -/

/-- Nested `max lo (min hi v)` (the source's idiom) agrees with the spec's
`clamp` whenever `lo ≤ hi`. -/
theorem max_min_eq_clampSpec (v lo hi : ℚ) (h : lo ≤ hi) :
    max lo (min hi v) = clampSpec v lo hi := by
  unfold clampSpec
  rcases le_total v lo with h1 | h1 <;> rcases le_total v hi with h2 | h2 <;>
    simp [max_def, min_def] <;> split_ifs <;> linarith

/-- C7: the section bias step computes exactly the four spec formulas —
height and period are multiplicative with clamps `[0.3, 3.0]` and `[6, 20]`,
wind speed is additive with clamp `[0, 35]`, and the direction offset is
added with no wraparound clamp (a 350° reading with a +25° offset leaves
the adjusted direction at 375°, beyond 360). -/
theorem sectionBias_formulas (wave : WaveReading) (wind : WindReading) (m : SectionBias) :
    (applySectionBias wave wind m).finalHeight
        = clampSpec (wave.avgHeight * m.heightMultiplier) 0.3 3.0 ∧
      (applySectionBias wave wind m).finalPeriod
        = clampSpec (wave.avgPeriod * m.periodMultiplier) 6 20 ∧
      (applySectionBias wave wind m).finalDirection
        = wave.avgDirection + m.directionOffset ∧
      (applySectionBias wave wind m).finalWindSpeed
        = clampSpec (wind.avgWindSpeed + m.windOffset) 0 35 ∧
      (applySectionBias { wave with avgDirection := 350 } wind
          { m with directionOffset := 25 }).finalDirection = 375 := by
  refine ⟨?_, ?_, rfl, ?_, by norm_num [applySectionBias]⟩
  · exact max_min_eq_clampSpec _ _ _ (by norm_num)
  · exact max_min_eq_clampSpec _ _ _ (by norm_num)
  · exact max_min_eq_clampSpec _ _ _ (by norm_num)

/-! ## Claim C9: tide trend -/

/-- C9: the tide trend is derived from the two most recent readings of the
series — rising exactly when the current reading exceeds the previous one —
and the two example series from the spec give "rising" and "falling". -/
theorem tideTrend_last_two (l : List (String × ℚ)) (a b : String × ℚ) :
    deriveTideReading (l ++ [a, b])
        = some ⟨b.2, if b.2 > a.2 then .rising else .falling⟩ ∧
      deriveTideReading [("t0", 2.1), ("t1", 2.4)] = some ⟨2.4, .rising⟩ ∧
      deriveTideReading [("t0", 2.4), ("t1", 2.1)] = some ⟨2.1, .falling⟩ := by
  refine ⟨?_, ?_, ?_⟩
  · unfold deriveTideReading
    have hlen : (l ++ [a, b]).length = l.length + 2 := by simp
    rw [if_neg (by omega), hlen, Nat.add_sub_cancel, List.drop_left l [a, b]]
  · norm_num [deriveTideReading]
  · norm_num [deriveTideReading]

/-! ## Claim C6: synthetic fallback on all-null station pools -/

/-- The triplet scan finds nothing when its first array is all-null. -/
theorem findFirstNonNullTripletIndex_eq_none (a b c : List (Option ℚ))
    (h : ∀ x ∈ a, x = none) : findFirstNonNullTripletIndex a b c = none := by
  induction a generalizing b c with
  | nil => rfl
  | cons x xs ih =>
    cases b with
    | nil => rfl
    | cons y ys =>
      cases c with
      | nil => rfl
      | cons z zs =>
        unfold findFirstNonNullTripletIndex
        rw [h x (List.mem_cons_self x xs)]
        simp only [Option.isSome_none, Bool.false_and, if_false]
        rw [ih ys zs fun u hu => h u (List.mem_cons_of_mem x hu)]
        rfl

/-- A station with all-null wave data resolves no wave triple. -/
theorem resolveWaveTriple_eq_none (s : OpenMeteoResponse) (h : waveDataAllNull s) :
    resolveWaveTriple s = none := by
  obtain ⟨h1, h2, h3, -, h5, -⟩ := h
  unfold resolveWaveTriple
  rw [h1, h2, h3, findFirstNonNullTripletIndex_eq_none _ _ _ h5]

/-- A station with all-null wind data resolves no wind values. -/
theorem resolveWindTriple_eq_none (s : OpenMeteoResponse) (h : windDataAllNull s) :
    resolveWindTriple s = (none, none, none) := by
  obtain ⟨h1, h2, h3, h4, -, -⟩ := h
  unfold resolveWindTriple
  rw [h1, h2, h3, findFirstNonNullTripletIndex_eq_none _ _ _ h4]
  simp

/-- Membership after stable insertion. -/
theorem mem_insertByDist {y x : OpenMeteoResponse × ℚ} {l : List (OpenMeteoResponse × ℚ)}
    (h : y ∈ insertByDist x l) : y = x ∨ y ∈ l := by
  induction l with
  | nil =>
    simp only [insertByDist, List.mem_singleton] at h
    exact Or.inl h
  | cons z zs ih =>
    unfold insertByDist at h
    split_ifs at h with hle
    · rcases List.mem_cons.mp h with h1 | h1
      · exact Or.inr (by simp [h1])
      · rcases ih h1 with h2 | h2
        · exact Or.inl h2
        · exact Or.inr (List.mem_cons_of_mem z h2)
    · rcases List.mem_cons.mp h with h1 | h1
      · exact Or.inl h1
      · exact Or.inr h1

/-- The distance sort permutes but never invents stations. -/
theorem mem_sortByDist {y : OpenMeteoResponse × ℚ} {l : List (OpenMeteoResponse × ℚ)}
    (h : y ∈ sortByDist l) : y ∈ l := by
  induction l with
  | nil =>
    simp [sortByDist] at h
  | cons x xs ih =>
    unfold sortByDist at h
    rcases mem_insertByDist h with h1 | h1
    · simp [h1]
    · exact List.mem_cons_of_mem x (ih h1)

/-- The wave loop accumulates nothing over stations that resolve no
triple. -/
theorem foldl_waveAccStep_of_none (l : List (OpenMeteoResponse × ℚ)) (acc : WaveAcc)
    (h : ∀ sd ∈ l, resolveWaveTriple sd.1 = none) : l.foldl waveAccStep acc = acc := by
  induction l generalizing acc with
  | nil => rfl
  | cons x xs ih =>
    rw [List.foldl_cons]
    have hx : waveAccStep acc x = acc := by
      unfold waveAccStep
      rw [h x (List.mem_cons_self x xs)]
    rw [hx]
    exact ih acc fun sd hsd => h sd (List.mem_cons_of_mem x hsd)

/-- The wind loop accumulates nothing over stations that resolve no
values. -/
theorem foldl_windAccStep_of_none (l : List (OpenMeteoResponse × ℚ)) (acc : WindAcc)
    (h : ∀ sd ∈ l, resolveWindTriple sd.1 = (none, none, none)) :
    l.foldl windAccStep acc = acc := by
  induction l generalizing acc with
  | nil => rfl
  | cons x xs ih =>
    rw [List.foldl_cons]
    have hx : windAccStep acc x = acc := by
      unfold windAccStep
      rw [h x (List.mem_cons_self x xs)]
    rw [hx]
    exact ih acc fun sd hsd => h sd (List.mem_cons_of_mem x hsd)

/-- With entirely-null station pools the interpolation engine lands on the
synthetic fallback reading, whatever the draws and distances are. -/
theorem interpolatePoint_all_null (waveS windS : List OpenMeteoResponse)
    (dist : OpenMeteoResponse → CoastlinePoint → ℚ) (point : CoastlinePoint)
    (d : RandomDraws) (hwave : ∀ s ∈ waveS, waveDataAllNull s)
    (hwind : ∀ s ∈ windS, windDataAllNull s) :
    interpolatePoint waveS windS dist point d
      = (syntheticWaveReading d, syntheticWindReading d) := by
  simp only [interpolatePoint]
  have hw : ∀ sd ∈ (sortByDist (waveS.map fun s => (s, dist s point))).take 3,
      resolveWaveTriple sd.1 = none := by
    intro sd hsd
    obtain ⟨s, hs, rfl⟩ := List.mem_map.mp (mem_sortByDist (List.take_subset _ _ hsd))
    exact resolveWaveTriple_eq_none s (hwave s hs)
  have hwi : ∀ sd ∈ (sortByDist (windS.map fun s => (s, dist s point))).take 3,
      resolveWindTriple sd.1 = (none, none, none) := by
    intro sd hsd
    obtain ⟨s, hs, rfl⟩ := List.mem_map.mp (mem_sortByDist (List.take_subset _ _ hsd))
    exact resolveWindTriple_eq_none s (hwind s hs)
  rw [foldl_waveAccStep_of_none _ _ hw, foldl_windAccStep_of_none _ _ hwi]
  simp [waveAverages, windAverages]

/-- The assembled record's score inherits the `[0, 100]` clamp. -/
theorem processPoint_qualityScore_mem (wS wiS : List OpenMeteoResponse)
    (dist : OpenMeteoResponse → CoastlinePoint → ℚ) (sec : CoastlineSection)
    (tideData : List (String × TideInfo)) (d : RandomDraws) (index : ℕ)
    (point : CoastlinePoint) :
    0 ≤ (processPoint wS wiS dist sec tideData d index point).qualityScore ∧
      (processPoint wS wiS dist sec tideData d index point).qualityScore ≤ 100 := by
  unfold processPoint assemblePoint
  exact calculateWaveQuality_mem _ _

/-- C6: if every candidate wave and wind station is entirely null, the
per-point computation still produces a complete record (all fields are
total rationals in this embedding — no null or NaN can appear), built from
the bounded synthetic fallback: height in [1.0, 1.5] m, period in [10, 13] s,
direction in [250, 270]°, wind in [8, 14] kts, for every value of the random
draws; and its quality score is still a valid one. -/
theorem zero_weight_synthetic_fallback (waveS windS : List OpenMeteoResponse)
    (dist : OpenMeteoResponse → CoastlinePoint → ℚ) (sec : CoastlineSection)
    (tideData : List (String × TideInfo)) (d : RandomDraws) (index : ℕ)
    (point : CoastlinePoint)
    (hwave : ∀ s ∈ waveS, waveDataAllNull s) (hwind : ∀ s ∈ windS, windDataAllNull s)
    (hd : validDraws d) :
    interpolatePoint waveS windS dist point d
        = (syntheticWaveReading d, syntheticWindReading d) ∧
      (1 ≤ (syntheticWaveReading d).avgHeight ∧ (syntheticWaveReading d).avgHeight ≤ 1.5) ∧
      (10 ≤ (syntheticWaveReading d).avgPeriod ∧ (syntheticWaveReading d).avgPeriod ≤ 13) ∧
      (250 ≤ (syntheticWaveReading d).avgDirection ∧
        (syntheticWaveReading d).avgDirection ≤ 270) ∧
      (8 ≤ (syntheticWindReading d).avgWindSpeed ∧
        (syntheticWindReading d).avgWindSpeed ≤ 14) ∧
      0 ≤ (processPoint waveS windS dist sec tideData d index point).qualityScore ∧
      (processPoint waveS windS dist sec tideData d index point).qualityScore ≤ 100 := by
  obtain ⟨d1, d2, d3, d4, d5, d6, d7, d8, d9, d10⟩ := hd
  obtain ⟨hq0, hq100⟩ := processPoint_qualityScore_mem waveS windS dist sec tideData d index point
  refine ⟨interpolatePoint_all_null waveS windS dist point d hwave hwind,
    ⟨?_, ?_⟩, ⟨?_, ?_⟩, ⟨?_, ?_⟩, ⟨?_, ?_⟩, hq0, hq100⟩ <;>
    simp only [syntheticWaveReading, syntheticWindReading] <;> norm_num <;> linarith

/-- Witness for C6 at a single all-null station, central draws and a
concrete Santa Monica target point. -/
theorem zero_weight_synthetic_fallback_witness :
    interpolatePoint [nullStation] [nullStation] (fun _ _ => 0)
          ⟨34.02, -118.5, "Witness Point"⟩ ⟨1/2, 1/2, 1/2, 1/2, 1/2⟩
        = (syntheticWaveReading ⟨1/2, 1/2, 1/2, 1/2, 1/2⟩,
            syntheticWindReading ⟨1/2, 1/2, 1/2, 1/2, 1/2⟩) ∧
      (1 ≤ (syntheticWaveReading ⟨1/2, 1/2, 1/2, 1/2, 1/2⟩).avgHeight ∧
        (syntheticWaveReading ⟨1/2, 1/2, 1/2, 1/2, 1/2⟩).avgHeight ≤ 1.5) ∧
      (10 ≤ (syntheticWaveReading ⟨1/2, 1/2, 1/2, 1/2, 1/2⟩).avgPeriod ∧
        (syntheticWaveReading ⟨1/2, 1/2, 1/2, 1/2, 1/2⟩).avgPeriod ≤ 13) ∧
      (250 ≤ (syntheticWaveReading ⟨1/2, 1/2, 1/2, 1/2, 1/2⟩).avgDirection ∧
        (syntheticWaveReading ⟨1/2, 1/2, 1/2, 1/2, 1/2⟩).avgDirection ≤ 270) ∧
      (8 ≤ (syntheticWindReading ⟨1/2, 1/2, 1/2, 1/2, 1/2⟩).avgWindSpeed ∧
        (syntheticWindReading ⟨1/2, 1/2, 1/2, 1/2, 1/2⟩).avgWindSpeed ≤ 14) ∧
      0 ≤ (processPoint [nullStation] [nullStation] (fun _ _ => 0)
            { name := "Santa Monica Pier/Venice", pointSlice := (21, 26), points := [],
              bounds := ⟨34.1150, 33.9050, -118.6350, -118.2000⟩ } []
            ⟨1/2, 1/2, 1/2, 1/2, 1/2⟩ 0 ⟨34.02, -118.5, "Witness Point"⟩).qualityScore ∧
      (processPoint [nullStation] [nullStation] (fun _ _ => 0)
            { name := "Santa Monica Pier/Venice", pointSlice := (21, 26), points := [],
              bounds := ⟨34.1150, 33.9050, -118.6350, -118.2000⟩ } []
            ⟨1/2, 1/2, 1/2, 1/2, 1/2⟩ 0 ⟨34.02, -118.5, "Witness Point"⟩).qualityScore ≤ 100 :=
  zero_weight_synthetic_fallback [nullStation] [nullStation] (fun _ _ => 0)
    { name := "Santa Monica Pier/Venice", pointSlice := (21, 26), points := [],
      bounds := ⟨34.1150, 33.9050, -118.6350, -118.2000⟩ } []
    ⟨1/2, 1/2, 1/2, 1/2, 1/2⟩ 0 ⟨34.02, -118.5, "Witness Point"⟩
    (by
      intro s hs
      rw [List.mem_singleton] at hs
      subst hs
      simp [waveDataAllNull, nullStation])
    (by
      intro s hs
      rw [List.mem_singleton] at hs
      subst hs
      simp [windDataAllNull, nullStation])
    (by norm_num [validDraws])

/-! ## Claim C8: the pipeline never drops a point -/

/-- Mapping over an indexed map composes pointwise. -/
theorem map_mapWithIndexFrom {α β γ : Type} (g : β → γ) (f : ℕ → α → β) (n : ℕ)
    (l : List α) :
    (mapWithIndexFrom f n l).map g = mapWithIndexFrom (fun i a => g (f i a)) n l := by
  induction l generalizing n with
  | nil => rfl
  | cons x xs ih => simp [mapWithIndexFrom, ih]

/-- Indexed maps agree when the functions agree. -/
theorem mapWithIndexFrom_congr {α β : Type} (f f' : ℕ → α → β) (n : ℕ) (l : List α)
    (h : ∀ i a, f i a = f' i a) :
    mapWithIndexFrom f n l = mapWithIndexFrom f' n l := by
  induction l generalizing n with
  | nil => rfl
  | cons x xs ih => simp [mapWithIndexFrom, ih, h]

/-- Indexed maps preserve length. -/
theorem length_mapWithIndexFrom {α β : Type} (f : ℕ → α → β) (n : ℕ) (l : List α) :
    (mapWithIndexFrom f n l).length = l.length := by
  induction l generalizing n with
  | nil => rfl
  | cons x xs ih => simp [mapWithIndexFrom, ih]

/-- `mapM` in `Except` succeeds elementwise when every element succeeds. -/
theorem mapM_eq_ok {α β : Type} (l : List α) (f : α → Except String β) (g : α → β)
    (h : ∀ a ∈ l, f a = .ok (g a)) : l.mapM f = .ok (l.map g) := by
  induction l with
  | nil => rfl
  | cons x xs ih =>
    rw [List.mapM_cons, h x (List.mem_cons_self x xs),
      ih fun a ha => h a (List.mem_cons_of_mem x ha)]
    rfl

/-- With non-empty station pools a section run cannot fail. -/
theorem processSectionWaveData_ok (waveData windData : List OpenMeteoResponse)
    (dist : OpenMeteoResponse → CoastlinePoint → ℚ) (sec : CoastlineSection)
    (tideData : List (String × TideInfo)) (draws : ℕ → RandomDraws)
    (hwave : waveData ≠ []) (hwind : windData ≠ []) :
    processSectionWaveData waveData windData dist sec tideData draws
      = .ok (sectionOutput waveData windData dist sec tideData draws) := by
  rcases waveData with _ | ⟨w, ws⟩
  · exact absurd rfl hwave
  rcases windData with _ | ⟨v, vs⟩
  · exact absurd rfl hwind
  rfl

/-- The id and coordinates of an emitted record are determined by the
section, index and point alone. -/
theorem processPoint_id_lat_lng (wS wiS : List OpenMeteoResponse)
    (dist : OpenMeteoResponse → CoastlinePoint → ℚ) (sec : CoastlineSection)
    (tideData : List (String × TideInfo)) (d : RandomDraws) (index : ℕ)
    (point : CoastlinePoint) :
    ((processPoint wS wiS dist sec tideData d index point).id,
        (processPoint wS wiS dist sec tideData d index point).lat,
        (processPoint wS wiS dist sec tideData d index point).lng)
      = (pointId sec index, point.lat, point.lng) := rfl

/-- Projecting a section's output to (id, lat, lng) yields its skeleton. -/
theorem sectionOutput_map_proj (waveData windData : List OpenMeteoResponse)
    (dist : OpenMeteoResponse → CoastlinePoint → ℚ) (sec : CoastlineSection)
    (tideData : List (String × TideInfo)) (draws : ℕ → RandomDraws) :
    (sectionOutput waveData windData dist sec tideData draws).map
        (fun r => (r.id, r.lat, r.lng))
      = mapWithIndex (fun index point => (pointId sec index, point.lat, point.lng))
          (sec.points.filter fun point => !isInMarinaExclusionZone point.lat point.lng) := by
  unfold sectionOutput mapWithIndex
  rw [map_mapWithIndexFrom]
  exact mapWithIndexFrom_congr _ _ _ _ fun i a => processPoint_id_lat_lng _ _ _ _ _ _ _ _

/-- Filters distribute over flattening. -/
theorem filter_flatten_eq {α : Type} (L : List (List α)) (p : α → Bool) :
    (L.map (List.filter p)).flatten = L.flatten.filter p := by
  induction L with
  | nil => rfl
  | cons x xs ih =>
    rw [List.map_cons, List.flatten_cons, List.flatten_cons, List.filter_append, ih]

/-- A filter and its complement partition a list's length. -/
theorem length_filter_not_add {α : Type} (l : List α) (q : α → Bool) :
    (l.filter fun a => !q a).length + (l.filter q).length = l.length := by
  induction l with
  | nil => rfl
  | cons x xs ih =>
    by_cases hx : q x <;> simp [List.filter_cons, hx, ← ih] <;> omega

/-- The twelve section slices reassemble the master point list. -/
theorem sections_flatten_points :
    (COASTLINE_SECTIONS.map fun sec => sec.points).flatten = LA_COASTLINE_POINTS := rfl

/-- No point of the master list falls in the marina exclusion rectangle. -/
theorem marina_excludes_no_master_point (p : CoastlinePoint)
    (hp : p ∈ LA_COASTLINE_POINTS) : isInMarinaExclusionZone p.lat p.lng = false := by
  fin_cases hp <;> norm_num [isInMarinaExclusionZone]

/-- Every section's point list is a slice of the master list. -/
theorem section_points_subset (sec : CoastlineSection) (hsec : sec ∈ COASTLINE_SECTIONS) :
    sec.points ⊆ LA_COASTLINE_POINTS := by
  fin_cases hsec <;>
    (intro p hp
     simp only [jsSlice] at hp
     exact List.drop_subset _ _ (List.take_subset _ _ hp))

/-- C8: with non-empty station pools, one pipeline run emits exactly one
record per non-marina-excluded input point — the emission follows section
list order then point list order, each record carries the `slug-index` id
and its point's coordinates, the record count equals the master point count
minus the excluded points, and all ids are distinct. -/
theorem pipeline_emits_all_points (waveData windData : List OpenMeteoResponse)
    (dist : OpenMeteoResponse → CoastlinePoint → ℚ)
    (tideData : List (String × TideInfo)) (draws : String → ℕ → RandomDraws)
    (hwave : waveData ≠ []) (hwind : windData ≠ []) :
    ∃ out, processWaveDataForCoastline waveData windData dist tideData draws = .ok out ∧
      out.map (fun r => (r.id, r.lat, r.lng)) = pipelineSkeleton ∧
      out.length
          + (LA_COASTLINE_POINTS.filter fun p => isInMarinaExclusionZone p.lat p.lng).length
        = LA_COASTLINE_POINTS.length ∧
      (out.map fun r => r.id).Nodup := by
  refine ⟨(COASTLINE_SECTIONS.map fun sec =>
      sectionOutput waveData windData dist sec tideData (draws sec.name)).flatten,
    ?_, ?_, ?_, ?_⟩
  · unfold processWaveDataForCoastline
    rw [mapM_eq_ok _ _ _ fun sec _ =>
      processSectionWaveData_ok waveData windData dist sec tideData (draws sec.name)
        hwave hwind]
    rfl
  · rw [List.map_flatten, List.map_map]
    unfold pipelineSkeleton
    congr 1
    apply List.map_congr_left
    intro sec hsec
    exact sectionOutput_map_proj waveData windData dist sec tideData (draws sec.name)
  · rw [List.length_flatten, List.map_map]
    have h1 : COASTLINE_SECTIONS.map
          (List.length ∘ fun sec =>
            sectionOutput waveData windData dist sec tideData (draws sec.name))
        = COASTLINE_SECTIONS.map
          (fun sec => (sec.points.filter fun point =>
            !isInMarinaExclusionZone point.lat point.lng).length) := by
      apply List.map_congr_left
      intro sec hsec
      show (sectionOutput waveData windData dist sec tideData (draws sec.name)).length = _
      unfold sectionOutput mapWithIndex
      exact length_mapWithIndexFrom _ _ _
    rw [h1]
    have h2 : COASTLINE_SECTIONS.map
          (fun sec => (sec.points.filter fun point =>
            !isInMarinaExclusionZone point.lat point.lng).length)
        = ((COASTLINE_SECTIONS.map fun sec => sec.points).map
            (List.filter fun point => !isInMarinaExclusionZone point.lat point.lng)).map
          List.length := by
      rw [List.map_map, List.map_map]
      rfl
    rw [h2, ← List.length_flatten, filter_flatten_eq, sections_flatten_points]
    exact length_filter_not_add LA_COASTLINE_POINTS
      fun p => isInMarinaExclusionZone p.lat p.lng
  · have hproj : ((COASTLINE_SECTIONS.map fun sec =>
        sectionOutput waveData windData dist sec tideData (draws sec.name)).flatten).map
          (fun r => (r.id, r.lat, r.lng)) = pipelineSkeleton := by
      rw [List.map_flatten, List.map_map]
      unfold pipelineSkeleton
      congr 1
      apply List.map_congr_left
      intro sec hsec
      exact sectionOutput_map_proj waveData windData dist sec tideData (draws sec.name)
    have hids : ((COASTLINE_SECTIONS.map fun sec =>
        sectionOutput waveData windData dist sec tideData (draws sec.name)).flatten).map
          (fun r => r.id) = pipelineSkeleton.map fun t => t.1 := by
      rw [← hproj, List.map_map]
      rfl
    rw [hids]
    unfold pipelineSkeleton
    rw [List.map_flatten, List.map_map]
    have hcong : COASTLINE_SECTIONS.map
          ((List.map fun t => t.1) ∘ fun sec =>
            mapWithIndex (fun index point => (pointId sec index, point.lat, point.lng))
              (sec.points.filter fun point =>
                !isInMarinaExclusionZone point.lat point.lng))
        = COASTLINE_SECTIONS.map
          (fun sec => mapWithIndexFrom (fun index _ => pointId sec index) 0 sec.points) := by
      apply List.map_congr_left
      intro sec hsec
      have hfilter : sec.points.filter
          (fun point => !isInMarinaExclusionZone point.lat point.lng) = sec.points := by
        apply List.filter_eq_self.mpr
        intro p hp
        simp [marina_excludes_no_master_point p (section_points_subset sec hsec hp)]
      show (mapWithIndex (fun index point => (pointId sec index, point.lat, point.lng))
          (sec.points.filter fun point =>
            !isInMarinaExclusionZone point.lat point.lng)).map (fun t => t.1) = _
      rw [hfilter]
      unfold mapWithIndex
      rw [map_mapWithIndexFrom]
    rw [hcong]
    decide

/-- Witness for C8: a run over single all-null wave and wind stations. -/
theorem pipeline_emits_all_points_witness :
    ∃ out, processWaveDataForCoastline [nullStation] [nullStation] (fun _ _ => 0) []
          (fun _ _ => ⟨1/2, 1/2, 1/2, 1/2, 1/2⟩) = .ok out ∧
      out.map (fun r => (r.id, r.lat, r.lng)) = pipelineSkeleton ∧
      out.length
          + (LA_COASTLINE_POINTS.filter fun p => isInMarinaExclusionZone p.lat p.lng).length
        = LA_COASTLINE_POINTS.length ∧
      (out.map fun r => r.id).Nodup :=
  pipeline_emits_all_points [nullStation] [nullStation] (fun _ _ => 0) []
    (fun _ _ => ⟨1/2, 1/2, 1/2, 1/2, 1/2⟩) (by simp) (by simp)
